import Mathlib

/-!
Verification of the Personal-site repository's content-persistence,
color-analysis and theme-management subsystems, shallowly embedded in Lean.

Conventions of the embedding:
* JavaScript numbers are modelled as exact rationals (`ℚ`) where the code
  performs arithmetic on discrete data, and as real numbers (`ℝ`) for the
  WCAG luminance computation (`Math.pow(x, 2.4)` becomes `Real.rpow`).
* `localStorage` is a partial map from keys to cells.  A cell is either a
  parseable auto-save record (`JSON.parse` succeeds and ISO timestamps are
  represented by their epoch milliseconds) or a corrupt string on which
  `JSON.parse` throws.  `JSON.stringify`/`JSON.parse` round-tripping of
  serializable values is the identity, so records store the structured value.
* Code that can throw is modelled with `Except String`.
* `Date.now()` is an explicit `now : ℤ` argument (epoch milliseconds).
-/

/-- JSON-serializable JavaScript values: the payload type `T` of the
persistence utilities. -/
inductive JValue where
  | jnull
  | jbool (value : Bool)
  | jnum (value : ℚ)
  | jstr (value : String)
  | jarr (elements : List JValue)
  | jobj (entries : List (String × JValue))

/-- JavaScript truthiness of a value, as used by `if (backup)` in
`ContentPersistence.restoreBackup`. -/
def JValue.truthy : JValue → Bool
  | .jnull => false
  | .jbool value => value
  | .jnum value => decide (value ≠ 0)
  | .jstr value => decide (value ≠ "")
  | .jarr _ => true
  | .jobj _ => true

namespace ContentPersistence

/-- The `AutoSaveData<T>` wrapper stored by `ContentPersistence.save`:
`{ data, timestamp, version }` with the ISO timestamp modelled as epoch
milliseconds. -/
structure AutoSaveData where
  data : JValue
  timestampMs : ℤ
  version : String

/-- One `localStorage` slot: either a string that `JSON.parse` accepts as an
auto-save record, or a corrupt string on which `JSON.parse` throws. -/
inductive Cell where
  | record (r : AutoSaveData)
  | corrupt

/-- The `localStorage` key-value store. -/
def Store := String → Option Cell

/-- A store with no saved data. -/
def emptyStore : Store := fun _ => none

/-- `localStorage.setItem`. -/
def setItem (st : Store) (k : String) (c : Cell) : Store :=
  fun k' => if k' = k then some c else st k'

/-- `localStorage.removeItem`. -/
def removeItem (st : Store) (k : String) : Store :=
  fun k' => if k' = k then none else st k'

/-- The private `VERSION` constant. -/
def VERSION : String := "1.0.0"

/-- The private `MAX_AGE_HOURS` constant. -/
def MAX_AGE_HOURS : ℚ := 24

/-- `ContentPersistence.save`: wraps the payload with a timestamp and version
and writes it; any exception from serialization or `setItem` (modelled by the
`throws` flag, e.g. quota exceeded or disabled storage) is caught and turned
into a `false` return value. -/
def save (now : ℤ) (k : String) (v : JValue) (throws : Bool) (st : Store) :
    Bool × Store :=
  if throws then (false, st)
  else (true, setItem st k (.record ⟨v, now, VERSION⟩))

/-- Age of a record in hours, as computed by `ContentPersistence.load`:
`(Date.now() - savedTime.getTime()) / 1000 / 60 / 60`. -/
def ageHours (now savedMs : ℤ) : ℚ :=
  ((now - savedMs : ℤ) : ℚ) / 1000 / 60 / 60

/-- `ContentPersistence.load`: reads the slot, purges and returns `null` when
the stored string fails to parse, purges and returns `null` when the record is
older than `MAX_AGE_HOURS`, and otherwise returns the stored payload. -/
def load (now : ℤ) (k : String) (st : Store) : Option JValue × Store :=
  match st k with
  | none => (none, st)
  | some .corrupt => (none, removeItem st k)
  | some (.record r) =>
      if ageHours now r.timestampMs > MAX_AGE_HOURS then (none, removeItem st k)
      else (some r.data, st)

/-- `ContentPersistence.getAge`: age of the saved record in minutes, `null`
when the slot is empty or any exception occurs (no purge on failure). -/
def getAge (now : ℤ) (k : String) (st : Store) : Option ℚ :=
  match st k with
  | none => none
  | some .corrupt => none
  | some (.record r) => some (((now - r.timestampMs : ℤ) : ℚ) / 1000 / 60)

/-- `ContentPersistence.clear`. -/
def clear (k : String) (st : Store) : Store := removeItem st k

/-- `ContentPersistence.has`: `localStorage.getItem(key) !== null`. -/
def has (k : String) (st : Store) : Bool := (st k).isSome

/-- `ContentPersistence.createBackup`: `save(key + "-backup", data)`. -/
def createBackup (now : ℤ) (k : String) (v : JValue) (throws : Bool)
    (st : Store) : Bool × Store :=
  save now (k ++ "-backup") v throws st

/-- `ContentPersistence.restoreBackup`: loads the backup slot; if the loaded
value is truthy it is saved back to the primary key (the inner `save` may
itself swallow a storage exception, `throws`) and the backup slot is cleared;
the loaded value is returned either way. -/
def restoreBackup (now : ℤ) (k : String) (throws : Bool) (st : Store) :
    Option JValue × Store :=
  let res := load now (k ++ "-backup") st
  match res.1 with
  | some v =>
      if v.truthy then
        let st2 := (save now k v throws res.2).2
        (some v, removeItem st2 (k ++ "-backup"))
      else (some v, res.2)
  | none => (none, res.2)

end ContentPersistence

/-! ## Blog save API: `generateSlug` (src/pages/api/blog/save.ts) -/

/-- Character class of the regex `[^a-z0-9]` (negated), i.e. the characters
kept verbatim by `generateSlug` after lowercasing. -/
def isSlugChar (c : Char) : Bool :=
  (97 ≤ c.toNat && c.toNat ≤ 122) || (48 ≤ c.toNat && c.toNat ≤ 57)

/-- The global replacement `replace(/[^a-z0-9]+/g, '-')`: each maximal run of
characters outside `[a-z0-9]` becomes a single `'-'`.  The boolean argument
records whether the previous character was part of such a run. -/
def collapseNonAlnum : Bool → List Char → List Char
  | _, [] => []
  | inRun, c :: cs =>
      if isSlugChar c then c :: collapseNonAlnum false cs
      else if inRun then collapseNonAlnum true cs
      else '-' :: collapseNonAlnum true cs

/-- The trim `replace(/^-+|-+$/g, '')`: drop leading and trailing dashes. -/
def trimDashes (l : List Char) : List Char :=
  ((l.dropWhile (· = '-')).reverse.dropWhile (· = '-')).reverse

/-- `generateSlug` from src/pages/api/blog/save.ts: lowercase, replace runs of
non-alphanumerics with `'-'`, strip leading/trailing dashes.  (`Char.toLower`
agrees with JavaScript `toLowerCase` on the ASCII titles at issue.) -/
def generateSlug (title : String) : String :=
  String.mk (trimDashes (collapseNonAlnum false (title.data.map Char.toLower)))

/-! ## Color analyzer (color-analyzer.ts): RGB/hex conversions -/

/-- RGB triple as produced by the color analyzer; channel values are
nonnegative integers (the pipeline never produces negative channels). -/
structure RGB where
  r : ℕ
  g : ℕ
  b : ℕ
  deriving DecidableEq

/-- JavaScript `Math.round` for the nonnegative rationals used here
(round half up). -/
def jsRound (x : ℚ) : ℤ := ⌊x + 1 / 2⌋

/-- JavaScript `n.toString(16)` for a natural number: lowercase hexadecimal
digits, no padding. -/
def jsToString16 (n : ℕ) : String := String.mk (Nat.toDigits 16 n)

/-- The inner `toHex` of `rgbToHex`: hexadecimal representation, left-padded
with `'0'` to at least two digits. -/
def toHex (n : ℕ) : String :=
  let hex := jsToString16 n
  if hex.length = 1 then "0" ++ hex else hex

/-- `rgbToHex` from color-analyzer.ts (its `Math.round` is the identity on the
integer channels the pipeline passes in). -/
def rgbToHex (rgb : RGB) : String :=
  "#" ++ toHex rgb.r ++ toHex rgb.g ++ toHex rgb.b

/-- Value of one hexadecimal digit character, accepting both cases just as the
case-insensitive regex of `hexToRgb` does. -/
def hexDigitVal (c : Char) : Option ℕ :=
  if 48 ≤ c.toNat ∧ c.toNat ≤ 57 then some (c.toNat - 48)
  else if 97 ≤ c.toNat ∧ c.toNat ≤ 102 then some (c.toNat - 87)
  else if 65 ≤ c.toNat ∧ c.toNat ≤ 70 then some (c.toNat - 55)
  else none

/-- Parser for one two-digit hexadecimal byte, used to factor the round-trip
proof of `hexToRgb` after `rgbToHex`. -/
def parseByte (s : String) : Option ℕ :=
  match s.data with
  | [c1, c2] =>
      match hexDigitVal c1, hexDigitVal c2 with
      | some a, some b => some (a * 16 + b)
      | _, _ => none
  | _ => none

/-- The optional leading `#?` of the `hexToRgb` regex. -/
def stripHash : List Char → List Char
  | '#' :: rest => rest
  | cs => cs

/-- `hexToRgb` from color-analyzer.ts: matches
`/^#?([a-f\d]{2})([a-f\d]{2})([a-f\d]{2})$/i` (an optional `#` followed by
exactly six hexadecimal digits) and throws on anything else. -/
def hexToRgb (hex : String) : Except String RGB :=
  match stripHash hex.data with
  | [c1, c2, c3, c4, c5, c6] =>
      match hexDigitVal c1, hexDigitVal c2, hexDigitVal c3,
            hexDigitVal c4, hexDigitVal c5, hexDigitVal c6 with
      | some a, some b, some c, some d, some e, some f =>
          .ok ⟨a * 16 + b, c * 16 + d, e * 16 + f⟩
      | _, _, _, _, _, _ => .error ("Invalid hex color: " ++ hex)
  | _ => .error ("Invalid hex color: " ++ hex)

/-! ## Color analyzer: HSL conversions (exact rational arithmetic) -/

/-- HSL triple: hue in degrees, saturation and lightness in `[0, 1]`. -/
structure HSL where
  h : ℚ
  s : ℚ
  l : ℚ

/-- `rgbToHsl` from color-analyzer.ts.  The `switch (max)` is modelled by an
`if` chain testing `r`, then `g`, then `b`, matching JavaScript's first-match
semantics. -/
def rgbToHsl (rgb : RGB) : HSL :=
  let r : ℚ := (rgb.r : ℚ) / 255
  let g : ℚ := (rgb.g : ℚ) / 255
  let b : ℚ := (rgb.b : ℚ) / 255
  let maxc := max r (max g b)
  let minc := min r (min g b)
  let l := (maxc + minc) / 2
  if maxc = minc then ⟨0, 0, l⟩
  else
    let d := maxc - minc
    let s := if l > 1 / 2 then d / (2 - maxc - minc) else d / (maxc + minc)
    let h :=
      if maxc = r then ((g - b) / d + (if g < b then 6 else 0)) / 6
      else if maxc = g then ((b - r) / d + 2) / 6
      else ((r - g) / d + 4) / 6
    ⟨h * 360, s, l⟩

/-- The inner `hue2rgb` helper of `hslToHex`. -/
def hue2rgb (p q t : ℚ) : ℚ :=
  let t := if t < 0 then t + 1 else t
  let t := if t > 1 then t - 1 else t
  if t < 1 / 6 then p + (q - p) * 6 * t
  else if t < 1 / 2 then q
  else if t < 2 / 3 then p + (q - p) * (2 / 3 - t) * 6
  else p

/-- Rounding of a channel in `[0, 1]` to a byte, `Math.round(x * 255)`. -/
def round255 (x : ℚ) : ℕ := (jsRound (x * 255)).toNat

/-- `hslToHex` from color-analyzer.ts. -/
def hslToHex (hsl : HSL) : String :=
  let h := hsl.h / 360
  let s := hsl.s
  let l := hsl.l
  if s = 0 then
    rgbToHex ⟨round255 l, round255 l, round255 l⟩
  else
    let q := if l < 1 / 2 then l * (1 + s) else l + s - l * s
    let p := 2 * l - q
    rgbToHex ⟨round255 (hue2rgb p q (h + 1 / 3)),
              round255 (hue2rgb p q h),
              round255 (hue2rgb p q (h - 1 / 3))⟩

/-! ## Color analyzer: pixel sampling and k-means-style extraction -/

/-- One RGBA pixel of the scaled canvas image. -/
structure RGBA where
  r : ℕ
  g : ℕ
  b : ℕ
  a : ℕ
  deriving DecidableEq

/-- The sampling loop `for (i = 0; i < pixels.length; i += 16)` over the byte
array reads every 4th RGBA pixel. -/
def sampleEvery4 (l : List RGBA) : List RGBA :=
  (l.enum.filter (fun p => p.1 % 4 = 0)).map (·.2)

/-- Channel quantization `Math.round(c / 32) * 32`. -/
def quantize (c : ℕ) : ℕ := ((jsRound ((c : ℚ) / 32)) * 32).toNat

/-- Insertion into the `colorCounts` map.  The JavaScript `Map` is keyed by
the string `qr + "," + qg + "," + qb`, which encodes the quantized triple
injectively, so the map is modelled as an insertion-ordered association list
keyed by the triple itself. -/
def bump : List (RGB × ℕ) → RGB → List (RGB × ℕ)
  | [], c => [(c, 1)]
  | (c', n) :: rest, c =>
      if c'.r = c.r ∧ c'.g = c.g ∧ c'.b = c.b then (c', n + 1) :: rest
      else (c', n) :: bump rest c

/-- The pixel filter of `extractColors`: skip transparent pixels
(`a < 128`) and background pixels (average brightness above 240 or
below 15), then count the quantized color. -/
def countPixel (m : List (RGB × ℕ)) (p : RGBA) : List (RGB × ℕ) :=
  if p.a < 128 then m
  else if ((p.r + p.g + p.b : ℕ) : ℚ) / 3 > 240 ∨ ((p.r + p.g + p.b : ℕ) : ℚ) / 3 < 15 then m
  else bump m ⟨quantize p.r, quantize p.g, quantize p.b⟩

/-- `extractColors` from color-analyzer.ts: sample every 4th pixel, filter,
quantize and count, then stably sort by frequency (descending, as
`sort((a, b) => b.count - a.count)` does) and keep the `k` most frequent
colors. -/
def extractColors (pixels : List RGBA) (k : ℕ) : List RGB :=
  let counts := (sampleEvery4 pixels).foldl countPixel []
  ((counts.mergeSort (fun a b => decide (b.2 ≤ a.2))).take k).map (·.1)

/-- The `ColorPalette` interface. -/
structure ColorPalette where
  dominant : List String
  vibrant : List String
  muted : List String

/-- The loop body of `categorizeColors`, building the three push-ordered
lists: every color goes to `dominant`, colors with saturation above 0.4 to
`vibrant`, the rest to `muted`. -/
def categorizeLists : List RGB → List String × List String × List String
  | [] => ([], [], [])
  | c :: rest =>
      let hex := rgbToHex c
      let hsl := rgbToHsl c
      let prev := categorizeLists rest
      (hex :: prev.1,
       if hsl.s > 0.4 then hex :: prev.2.1 else prev.2.1,
       if hsl.s ≤ 0.4 then hex :: prev.2.2 else prev.2.2)

/-- `categorizeColors` from color-analyzer.ts. -/
def categorizeColors (colors : List RGB) : ColorPalette :=
  let lists := categorizeLists colors
  ⟨lists.1.take 5, lists.2.1.take 3, lists.2.2.take 3⟩

/-! ## Color analyzer: accent palette generation -/

/-- The `AccentPalette` interface. -/
structure AccentPalette where
  primary : String
  secondary : String
  light : String
  contrast : String
  deriving DecidableEq

/-- JavaScript `%` on the nonnegative rationals used for the hue shift
`(h + 15) % 360`. -/
def qmod (a b : ℚ) : ℚ := a - b * (⌊a / b⌋ : ℤ)

/-- `findMostVibrant` from color-analyzer.ts: fold over the colors keeping the
one with the highest vibrancy `s * (1 - |l - 0.5|)`; `hexToRgb` failures
propagate as exceptions. -/
def findMostVibrant (colors : List String) : Except String String :=
  let first := colors.headD ""
  Except.map (·.1)
    (colors.foldlM (fun (acc : String × ℚ) color =>
        match hexToRgb color with
        | .error e => .error e
        | .ok rgb =>
            let hsl := rgbToHsl rgb
            let vibrancy := hsl.s * (1 - |hsl.l - 0.5|)
            .ok (if vibrancy > acc.2 then (color, vibrancy) else acc))
      (first, 0))

/-- The fixed default (blue) accent palette used as fallback. -/
def defaultAccentPalette : AccentPalette :=
  ⟨"#2563eb", "#3b82f6", "#eff6ff", "#ffffff"⟩

/-- `generateAccentPalette` from color-analyzer.ts. -/
def generateAccentPalette (dominantColors : List String) :
    Except String AccentPalette :=
  if dominantColors.isEmpty then .ok defaultAccentPalette
  else
    match findMostVibrant dominantColors with
    | .error e => .error e
    | .ok primaryColor =>
        match hexToRgb primaryColor with
        | .error e => .error e
        | .ok primaryRgb =>
            let primaryHsl := rgbToHsl primaryRgb
            let secondaryHsl : HSL :=
              ⟨qmod (primaryHsl.h + 15) 360,
               max 0.4 (primaryHsl.s - 0.1),
               min 0.6 (primaryHsl.l + 0.1)⟩
            let secondary := hslToHex secondaryHsl
            let lightHsl : HSL :=
              ⟨primaryHsl.h, max 0.3 (primaryHsl.s - 0.2), 0.95⟩
            let light := hslToHex lightHsl
            let contrast := if primaryHsl.l > 0.5 then "#111827" else "#ffffff"
            .ok ⟨primaryColor, secondary, light, contrast⟩

/-! ## Color analyzer: WCAG luminance and contrast (real arithmetic) -/

/-- Linearization of one sRGB channel inside `getRelativeLuminance`:
`c <= 0.03928 ? c / 12.92 : Math.pow((c + 0.055) / 1.055, 2.4)`. -/
noncomputable def srgbLin (c : ℝ) : ℝ :=
  if c ≤ 0.03928 then c / 12.92 else ((c + 0.055) / 1.055) ^ (2.4 : ℝ)

/-- `getRelativeLuminance` from color-analyzer.ts. -/
noncomputable def getRelativeLuminance (rgb : RGB) : ℝ :=
  0.2126 * srgbLin ((rgb.r : ℝ) / 255) + 0.7152 * srgbLin ((rgb.g : ℝ) / 255) +
    0.0722 * srgbLin ((rgb.b : ℝ) / 255)

/-- `getContrastRatio` from color-analyzer.ts:
`(lighter + 0.05) / (darker + 0.05)`; `hexToRgb` failures propagate (the first
argument is parsed first). -/
noncomputable def getContrastRatio (color1 color2 : String) :
    Except String ℝ :=
  match hexToRgb color1 with
  | .error e => .error e
  | .ok rgb1 =>
      match hexToRgb color2 with
      | .error e => .error e
      | .ok rgb2 =>
          .ok ((max (getRelativeLuminance rgb1) (getRelativeLuminance rgb2) + 0.05) /
               (min (getRelativeLuminance rgb1) (getRelativeLuminance rgb2) + 0.05))

/-- WCAG conformance level parameter of `meetsAccessibilityStandards`. -/
inductive WCAGLevel where
  | AA
  | AAA
  deriving DecidableEq

/-- `meetsAccessibilityStandards` from color-analyzer.ts:
`ratio >= (level === 'AAA' ? 7 : 4.5)`. -/
noncomputable def meetsAccessibilityStandards (foreground background : String)
    (level : WCAGLevel) : Except String Bool :=
  match getContrastRatio foreground background with
  | .error e => .error e
  | .ok ratio => .ok (decide (ratio ≥ if level = .AAA then (7 : ℝ) else 4.5))

/-! ## Theme manager (theme-manager.ts) -/

namespace ThemeManager

/-- The `while` loop of `ThemeManager.adjustColorForContrast`, with fuel
`maxAttempts - attempts` (`maxAttempts = 20`): while the candidate fails the
AA standard, reduce lightness by 0.05 with a floor of 0.1; exceptions from the
contrast check propagate. -/
noncomputable def adjustLoop (background : String) : ℕ → HSL → Except String String
  | 0, hsl => .ok (hslToHex hsl)
  | n + 1, hsl =>
      match meetsAccessibilityStandards (hslToHex hsl) background .AA with
      | .error e => .error e
      | .ok true => .ok (hslToHex hsl)
      | .ok false => adjustLoop background n { hsl with l := max 0.1 (hsl.l - 0.05) }

/-- `ThemeManager.adjustColorForContrast`: darken the color in fixed lightness
steps (at most 20 attempts) until it meets the AA contrast requirement against
`background`. -/
noncomputable def adjustColorForContrast (color background : String) :
    Except String String :=
  match hexToRgb color with
  | .error e => .error e
  | .ok rgb => adjustLoop background 20 (rgbToHsl rgb)

/-- `ThemeManager.lightenColor`: raise lightness by 0.3 (cap 0.95) and reduce
saturation by 0.3 (floor 0.2). -/
noncomputable def lightenColor (color : String) : Except String String :=
  match hexToRgb color with
  | .error e => .error e
  | .ok rgb =>
      let hsl := rgbToHsl rgb
      .ok (hslToHex ⟨hsl.h, max 0.2 (hsl.s - 0.3), min 0.95 (hsl.l + 0.3)⟩)

/-- `ThemeManager.validateAccessibility`: adjust `primary` and `secondary` to
meet the AA contrast requirement against a white background, and lighten
`light` when it is too dark; `contrast` is passed through. -/
noncomputable def validateAccessibility (palette : AccentPalette) :
    Except String AccentPalette :=
  match meetsAccessibilityStandards palette.primary "#ffffff" .AA with
  | .error e => .error e
  | .ok pOk =>
      match (if pOk then .ok palette.primary
             else adjustColorForContrast palette.primary "#ffffff") with
      | .error e => .error e
      | .ok primary =>
          match meetsAccessibilityStandards palette.secondary "#ffffff" .AA with
          | .error e => .error e
          | .ok sOk =>
              match (if sOk then .ok palette.secondary
                     else adjustColorForContrast palette.secondary "#ffffff") with
              | .error e => .error e
              | .ok secondary =>
                  match getContrastRatio palette.light "#ffffff" with
                  | .error e => .error e
                  | .ok lightContrast =>
                      match (if lightContrast > 1.5 then lightenColor palette.light
                             else .ok palette.light) with
                      | .error e => .error e
                      | .ok light => .ok ⟨primary, secondary, light, palette.contrast⟩

end ThemeManager

/-! ## Persistence lemmas and claims -/

namespace ContentPersistence

/-- A primary key is never equal to its backup key. -/
theorem ne_backup_key (k : String) : k ≠ k ++ "-backup" := by
  intro h
  have hlen := congrArg String.length h
  rw [String.length_append] at hlen
  have h7 : "-backup".length = 7 := rfl
  omega

/-- Loading a slot immediately after a successful save returns the payload and
leaves the store unchanged (the fresh record has age zero). -/
theorem load_after_save (now : ℤ) (k : String) (v : JValue) (st : Store) :
    load now k (save now k v false st).2 = (some v, (save now k v false st).2) := by
  simp [save, load, setItem]
  norm_num [ageHours, MAX_AGE_HOURS]

end ContentPersistence

/-- C1: for every key and serializable payload, a successful `save` followed
immediately by `load` returns the saved payload (the record is fresh, so the
age check passes and the stored `data` field is returned unchanged). -/
theorem save_then_load_returns_payload (now : ℤ) (k : String) (v : JValue)
    (st : ContentPersistence.Store) :
    (ContentPersistence.save now k v false st).1 = true ∧
    (ContentPersistence.load now k
        (ContentPersistence.save now k v false st).2).1 = some v := by
  refine ⟨rfl, ?_⟩
  rw [ContentPersistence.load_after_save]

/-- C3: `load` on a record older than the 24-hour retention window purges the
slot and returns absent, and `has` on the purged store is false. -/
theorem stale_load_purges (now : ℤ) (k : String)
    (st : ContentPersistence.Store) (r : ContentPersistence.AutoSaveData)
    (hrec : st k = some (.record r))
    (hage : ContentPersistence.ageHours now r.timestampMs >
      ContentPersistence.MAX_AGE_HOURS) :
    (ContentPersistence.load now k st).1 = none ∧
    ContentPersistence.has k (ContentPersistence.load now k st).2 = false := by
  simp [ContentPersistence.load, hrec, if_pos hage, ContentPersistence.has,
        ContentPersistence.removeItem]

/-- Witness for C3: a record saved at epoch 0 loaded 25 hours later. -/
theorem stale_load_purges_witness :
    (ContentPersistence.load 90000000 "draft"
        (ContentPersistence.setItem ContentPersistence.emptyStore "draft"
          (.record ⟨.jstr "x", 0, "1.0.0"⟩))).1 = none ∧
    ContentPersistence.has "draft"
      (ContentPersistence.load 90000000 "draft"
        (ContentPersistence.setItem ContentPersistence.emptyStore "draft"
          (.record ⟨.jstr "x", 0, "1.0.0"⟩))).2 = false :=
  stale_load_purges 90000000 "draft" _ ⟨.jstr "x", 0, "1.0.0"⟩ rfl
    (by norm_num [ContentPersistence.ageHours, ContentPersistence.MAX_AGE_HOURS])

/-- Counterexample to C4 as stated: for the falsy payload `false`,
`createBackup` followed by `restoreBackup` returns the payload but, because of
the JavaScript truthiness test `if (backup)`, does **not** copy it to the
primary slot and does **not** delete the backup slot. -/
theorem restore_backup_falsy_counterexample :
    (ContentPersistence.restoreBackup 0 "post" false
        (ContentPersistence.createBackup 0 "post" (.jbool false) false
          ContentPersistence.emptyStore).2).1 = some (.jbool false) ∧
    ContentPersistence.has "post"
      (ContentPersistence.restoreBackup 0 "post" false
        (ContentPersistence.createBackup 0 "post" (.jbool false) false
          ContentPersistence.emptyStore).2).2 = false ∧
    ContentPersistence.has "post-backup"
      (ContentPersistence.restoreBackup 0 "post" false
        (ContentPersistence.createBackup 0 "post" (.jbool false) false
          ContentPersistence.emptyStore).2).2 = true := by
  have hload : ContentPersistence.load 0 "post-backup"
      (ContentPersistence.setItem ContentPersistence.emptyStore "post-backup"
        (.record ⟨.jbool false, 0, ContentPersistence.VERSION⟩)) =
      (some (.jbool false),
        ContentPersistence.setItem ContentPersistence.emptyStore "post-backup"
          (.record ⟨.jbool false, 0, ContentPersistence.VERSION⟩)) :=
    ContentPersistence.load_after_save 0 "post-backup" (.jbool false)
      ContentPersistence.emptyStore
  refine ⟨?_, ?_, ?_⟩ <;>
    simp [ContentPersistence.restoreBackup, ContentPersistence.createBackup,
          hload, JValue.truthy, ContentPersistence.save,
          ContentPersistence.setItem, ContentPersistence.removeItem,
          ContentPersistence.has, ContentPersistence.emptyStore]

/-- C4 (amended): for every **truthy** payload, `createBackup` then
`restoreBackup` returns the payload, copies it into the primary slot
(`has k` true) and deletes the backup slot (`has (k ++ "-backup")` false). -/
theorem backup_restore_roundtrip_truthy (now : ℤ) (k : String) (v : JValue)
    (st : ContentPersistence.Store) (hv : v.truthy = true) :
    (ContentPersistence.restoreBackup now k false
        (ContentPersistence.createBackup now k v false st).2).1 = some v ∧
    ContentPersistence.has k
      (ContentPersistence.restoreBackup now k false
        (ContentPersistence.createBackup now k v false st).2).2 = true ∧
    ContentPersistence.has (k ++ "-backup")
      (ContentPersistence.restoreBackup now k false
        (ContentPersistence.createBackup now k v false st).2).2 = false := by
  have hne : ¬(k = k ++ "-backup") := ContentPersistence.ne_backup_key k
  have hload : ContentPersistence.load now (k ++ "-backup")
      (ContentPersistence.setItem st (k ++ "-backup")
        (.record ⟨v, now, ContentPersistence.VERSION⟩)) =
      (some v,
        ContentPersistence.setItem st (k ++ "-backup")
          (.record ⟨v, now, ContentPersistence.VERSION⟩)) :=
    ContentPersistence.load_after_save now (k ++ "-backup") v st
  refine ⟨?_, ?_, ?_⟩ <;>
    simp [ContentPersistence.restoreBackup, ContentPersistence.createBackup,
          hload, hv, ContentPersistence.save, ContentPersistence.setItem,
          ContentPersistence.removeItem, ContentPersistence.has, hne]

/-- Witness for C4 (amended): a truthy string payload round-trips through
backup and restore. -/
theorem backup_restore_roundtrip_truthy_witness :
    (ContentPersistence.restoreBackup 0 "post" false
        (ContentPersistence.createBackup 0 "post" (.jstr "hello") false
          ContentPersistence.emptyStore).2).1 = some (.jstr "hello") ∧
    ContentPersistence.has "post"
      (ContentPersistence.restoreBackup 0 "post" false
        (ContentPersistence.createBackup 0 "post" (.jstr "hello") false
          ContentPersistence.emptyStore).2).2 = true ∧
    ContentPersistence.has ("post" ++ "-backup")
      (ContentPersistence.restoreBackup 0 "post" false
        (ContentPersistence.createBackup 0 "post" (.jstr "hello") false
          ContentPersistence.emptyStore).2).2 = false :=
  backup_restore_roundtrip_truthy 0 "post" (.jstr "hello")
    ContentPersistence.emptyStore rfl

/-- C5: persistence operations convert failures to plain results instead of
raising: a `save` whose underlying write throws returns `false`, and on a slot
whose stored string fails to parse `load` purges and returns absent (so `has`
is subsequently false) and `getAge` returns absent. -/
theorem persistence_swallows_failures (now : ℤ) (k : String) (v : JValue)
    (st : ContentPersistence.Store) :
    (ContentPersistence.save now k v true st).1 = false ∧
    (st k = some .corrupt →
      (ContentPersistence.load now k st).1 = none ∧
      ContentPersistence.has k (ContentPersistence.load now k st).2 = false ∧
      ContentPersistence.getAge now k st = none) := by
  refine ⟨rfl, fun hc => ?_⟩
  simp [ContentPersistence.load, hc, ContentPersistence.has,
        ContentPersistence.removeItem, ContentPersistence.getAge]

/-- Witness for C5: a concrete corrupt slot. -/
theorem persistence_swallows_failures_witness :
    (ContentPersistence.save 0 "draft" (.jstr "x") true
        (ContentPersistence.setItem ContentPersistence.emptyStore "draft"
          .corrupt)).1 = false ∧
    ((ContentPersistence.load 0 "draft"
        (ContentPersistence.setItem ContentPersistence.emptyStore "draft"
          .corrupt)).1 = none ∧
      ContentPersistence.has "draft"
        (ContentPersistence.load 0 "draft"
          (ContentPersistence.setItem ContentPersistence.emptyStore "draft"
            .corrupt)).2 = false ∧
      ContentPersistence.getAge 0 "draft"
        (ContentPersistence.setItem ContentPersistence.emptyStore "draft"
          .corrupt) = none) :=
  ⟨(persistence_swallows_failures 0 "draft" (.jstr "x")
      (ContentPersistence.setItem ContentPersistence.emptyStore "draft"
        .corrupt)).1,
   (persistence_swallows_failures 0 "draft" (.jstr "x")
      (ContentPersistence.setItem ContentPersistence.emptyStore "draft"
        .corrupt)).2 rfl⟩

/-! ## Slug claim -/

/-- C9: the two concrete slugification scenarios from the spec. -/
theorem generateSlug_concrete :
    generateSlug "React vs Vue: A Comparison" = "react-vs-vue-a-comparison" ∧
    generateSlug "  Spaces  Everywhere  " = "spaces-everywhere" := by
  exact ⟨rfl, rfl⟩

/-! ## Hex round-trip lemmas and claim C8 -/

set_option maxRecDepth 8000 in
/-- Parsing a two-digit hex rendering recovers the byte, for every byte. -/
theorem parseByte_toHex : ∀ n : Fin 256, parseByte (toHex n.val) = some n.val := by
  decide

set_option maxRecDepth 8000 in
/-- The two-digit hex rendering of a byte has exactly two characters. -/
theorem toHex_data_length : ∀ n : Fin 256, (toHex n.val).data.length = 2 := by
  decide

/-- Structure of `toHex` output on bytes: two characters whose hex digit
values reassemble the byte. -/
theorem toHex_parse (n : ℕ) (h : n < 256) :
    ∃ c1 c2 a b, (toHex n).data = [c1, c2] ∧ hexDigitVal c1 = some a ∧
      hexDigitVal c2 = some b ∧ a * 16 + b = n := by
  have hp := parseByte_toHex ⟨n, h⟩
  have hl := toHex_data_length ⟨n, h⟩
  obtain ⟨c1, c2, hd⟩ : ∃ c1 c2, (toHex n).data = [c1, c2] := by
    rcases hdata : (toHex n).data with _ | ⟨c1, _ | ⟨c2, _ | ⟨c3, t⟩⟩⟩ <;>
      simp [hdata] at hl ⊢
  simp only [parseByte, hd] at hp
  rcases hv1 : hexDigitVal c1 with _ | a <;> rw [hv1] at hp
  · simp at hp
  · rcases hv2 : hexDigitVal c2 with _ | b <;> rw [hv2] at hp
    · simp at hp
    · exact ⟨c1, c2, a, b, hd, hv1, hv2, by simpa using hp⟩

/-- Round trip `hexToRgb (rgbToHex c) = c` for byte-valued channels; shared by
claims about hex validity. -/
theorem hexToRgb_rgbToHex (c : RGB) (hr : c.r < 256) (hg : c.g < 256)
    (hb : c.b < 256) : hexToRgb (rgbToHex c) = .ok c := by
  obtain ⟨r1, r2, ar, br, hdr, hvr1, hvr2, har⟩ := toHex_parse c.r hr
  obtain ⟨g1, g2, ag, bg, hdg, hvg1, hvg2, hag⟩ := toHex_parse c.g hg
  obtain ⟨b1, b2, ab, bb, hdb, hvb1, hvb2, hab⟩ := toHex_parse c.b hb
  have hdata : (rgbToHex c).data = '#' :: [r1, r2, g1, g2, b1, b2] := by
    simp [rgbToHex, String.data_append, hdr, hdg, hdb]
  simp only [hexToRgb, hdata, stripHash]
  simp [hvr1, hvr2, hvg1, hvg2, hvb1, hvb2, har, hag, hab]

/-- C8: for every RGB triple with channel values between 0 and 255 inclusive,
`hexToRgb (rgbToHex c)` equals `c`. -/
theorem hex_roundtrip (c : RGB) (hr : c.r ≤ 255) (hg : c.g ≤ 255)
    (hb : c.b ≤ 255) : hexToRgb (rgbToHex c) = .ok c :=
  hexToRgb_rgbToHex c (by omega) (by omega) (by omega)

/-- Witness for C8: the default-theme blue round-trips. -/
theorem hex_roundtrip_witness : hexToRgb (rgbToHex ⟨37, 99, 235⟩) = .ok ⟨37, 99, 235⟩ :=
  hex_roundtrip ⟨37, 99, 235⟩ (by decide) (by decide) (by decide)

/-! ## Fallback palette claim C6 -/

/-- C6: with no usable dominant colors — e.g. an all-transparent pixel buffer,
every sample of which is filtered out — `generateAccentPalette` returns
exactly the fixed default blue palette. -/
theorem generateAccentPalette_empty_default :
    generateAccentPalette [] = .ok defaultAccentPalette ∧
    extractColors [⟨0, 0, 0, 0⟩] 5 = [] := by
  refine ⟨rfl, ?_⟩
  have h : (sampleEvery4 [⟨0, 0, 0, 0⟩]).foldl countPixel [] = [] := rfl
  simp [extractColors, h, List.mergeSort_nil]

/-! ## Extractor hex validity: claim C10 -/

/-- Sampling every 4th pixel selects a subset of the buffer. -/
theorem sampleEvery4_subset (l : List RGBA) : ∀ p ∈ sampleEvery4 l, p ∈ l := by
  intro p hp
  simp only [sampleEvery4, List.mem_map, List.mem_filter] at hp
  obtain ⟨⟨i, q⟩, ⟨hmem, _⟩, hq⟩ := hp
  subst hq
  exact List.snd_mem_of_mem_enum hmem

/-- A channel below 240 quantizes to at most 224. -/
theorem quantize_le_of_lt (c : ℕ) (h : c ≤ 239) : quantize c ≤ 224 := by
  have hmono : jsRound ((c : ℚ) / 32) ≤ jsRound ((239 : ℚ) / 32) := by
    apply Int.floor_le_floor
    have : (c : ℚ) ≤ 239 := by exact_mod_cast h
    linarith
  have hval : jsRound ((239 : ℚ) / 32) = 7 := by
    norm_num [jsRound, Int.floor_eq_iff]
  rw [hval] at hmono
  have : (jsRound ((c : ℚ) / 32)) * 32 ≤ 224 := by linarith
  simpa [quantize, Int.toNat_le] using this

/-- A channel of at least 240 quantizes to 256, past the byte range. -/
theorem quantize_eq_256_of_ge (c : ℕ) (h1 : 240 ≤ c) (h2 : c ≤ 255) :
    quantize c = 256 := by
  have hlo : jsRound ((240 : ℚ) / 32) ≤ jsRound ((c : ℚ) / 32) := by
    apply Int.floor_le_floor
    have : (240 : ℚ) ≤ (c : ℚ) := by exact_mod_cast h1
    linarith
  have hhi : jsRound ((c : ℚ) / 32) ≤ jsRound ((255 : ℚ) / 32) := by
    apply Int.floor_le_floor
    have : (c : ℚ) ≤ 255 := by exact_mod_cast h2
    linarith
  have h240 : jsRound ((240 : ℚ) / 32) = 8 := by
    norm_num [jsRound, Int.floor_eq_iff]
  have h255 : jsRound ((255 : ℚ) / 32) = 8 := by
    norm_num [jsRound, Int.floor_eq_iff]
  have : jsRound ((c : ℚ) / 32) = 8 := by omega
  simp [quantize, this]

/-- `bump` only inserts the given color; every entry of the result is an old
entry or the inserted color. -/
theorem bump_forall (P : RGB → Prop) (m : List (RGB × ℕ)) (c : RGB)
    (hm : ∀ x ∈ m, P x.1) (hc : P c) : ∀ x ∈ bump m c, P x.1 := by
  induction m with
  | nil => intro x hx; simp only [bump, List.mem_singleton] at hx; subst hx; exact hc
  | cons hd tl ih =>
      intro x hx
      obtain ⟨c', n⟩ := hd
      simp only [bump] at hx
      split at hx
      · rcases List.mem_cons.mp hx with h | h
        · subst h; exact hm (c', n) (List.mem_cons_self _ _)
        · exact hm _ (List.mem_cons_of_mem _ h)
      · rcases List.mem_cons.mp hx with h | h
        · subst h; exact hm _ (List.mem_cons_self _ _)
        · exact ih (fun y hy => hm y (List.mem_cons_of_mem _ hy)) x h

/-- All colors counted from sub-240 pixels have channels at most 224. -/
theorem countFold_le (ps : List RGBA) :
    ∀ m, (∀ p ∈ ps, p.r ≤ 239 ∧ p.g ≤ 239 ∧ p.b ≤ 239) →
      (∀ x ∈ m, x.1.r ≤ 224 ∧ x.1.g ≤ 224 ∧ x.1.b ≤ 224) →
      ∀ x ∈ ps.foldl countPixel m, x.1.r ≤ 224 ∧ x.1.g ≤ 224 ∧ x.1.b ≤ 224 := by
  induction ps with
  | nil => intro m _ hm; simpa using hm
  | cons p tl ih =>
      intro m hps hm
      simp only [List.foldl_cons]
      apply ih
      · intro q hq; exact hps q (List.mem_cons_of_mem _ hq)
      · intro x hx
        have hp := hps p (List.mem_cons_self _ _)
        unfold countPixel at hx
        split at hx
        · exact hm x hx
        · split at hx
          · exact hm x hx
          · refine bump_forall (fun c => c.r ≤ 224 ∧ c.g ≤ 224 ∧ c.b ≤ 224) m _ hm ?_ x hx
            exact ⟨quantize_le_of_lt _ hp.1, quantize_le_of_lt _ hp.2.1,
                   quantize_le_of_lt _ hp.2.2⟩

/-- Every color produced by `extractColors` from a buffer of sub-240 pixels
has channels at most 224. -/
theorem extractColors_le (pixels : List RGBA) (k : ℕ)
    (h : ∀ p ∈ pixels, p.r ≤ 239 ∧ p.g ≤ 239 ∧ p.b ≤ 239) :
    ∀ c ∈ extractColors pixels k,
      c.r ≤ 224 ∧ c.g ≤ 224 ∧ c.b ≤ 224 := by
  intro c hc
  simp only [extractColors, List.mem_map] at hc
  obtain ⟨⟨c', n⟩, hmem, hc'⟩ := hc
  have h1 : (c', n) ∈ ((sampleEvery4 pixels).foldl countPixel []).mergeSort
      (fun a b => decide (b.2 ≤ a.2)) := List.take_subset _ _ hmem
  have h2 : (c', n) ∈ (sampleEvery4 pixels).foldl countPixel [] :=
    List.mem_mergeSort.mp h1
  have h3 := countFold_le (sampleEvery4 pixels) []
    (fun p hp => h p (sampleEvery4_subset pixels p hp)) (by simp) _ h2
  simpa [← hc'] using h3

/-- Every hex string pushed by `categorizeColors`' loop comes from one of the
input colors via `rgbToHex`. -/
theorem categorizeLists_mem (colors : List RGB) :
    (∀ hex ∈ (categorizeLists colors).1, ∃ c ∈ colors, hex = rgbToHex c) ∧
    (∀ hex ∈ (categorizeLists colors).2.1, ∃ c ∈ colors, hex = rgbToHex c) ∧
    (∀ hex ∈ (categorizeLists colors).2.2, ∃ c ∈ colors, hex = rgbToHex c) := by
  induction colors with
  | nil => simp [categorizeLists]
  | cons c rest ih =>
      obtain ⟨ih1, ih2, ih3⟩ := ih
      refine ⟨?_, ?_, ?_⟩ <;> intro hex hmem <;>
        simp only [categorizeLists] at hmem
      · rcases List.mem_cons.mp hmem with h | h
        · exact ⟨c, List.mem_cons_self _ _, h⟩
        · obtain ⟨c', hc', he⟩ := ih1 hex h
          exact ⟨c', List.mem_cons_of_mem _ hc', he⟩
      · split at hmem
        · rcases List.mem_cons.mp hmem with h | h
          · exact ⟨c, List.mem_cons_self _ _, h⟩
          · obtain ⟨c', hc', he⟩ := ih2 hex h
            exact ⟨c', List.mem_cons_of_mem _ hc', he⟩
        · obtain ⟨c', hc', he⟩ := ih2 hex hmem
          exact ⟨c', List.mem_cons_of_mem _ hc', he⟩
      · split at hmem
        · rcases List.mem_cons.mp hmem with h | h
          · exact ⟨c, List.mem_cons_self _ _, h⟩
          · obtain ⟨c', hc', he⟩ := ih3 hex h
            exact ⟨c', List.mem_cons_of_mem _ hc', he⟩
        · obtain ⟨c', hc', he⟩ := ih3 hex hmem
          exact ⟨c', List.mem_cons_of_mem _ hc', he⟩

/-- C10 (amended): on buffers whose sampled channels all stay below 240, every
hex string of the produced `ColorPalette` is accepted by `hexToRgb` — the
quantized channels stay at or below 224, hence within the byte range; but
channels of 240 and above quantize to 256 and make `hexToRgb`'s error branch
reachable (see the counterexample). -/
theorem extractor_hex_valid (pixels : List RGBA)
    (h : ∀ p ∈ pixels, p.r ≤ 239 ∧ p.g ≤ 239 ∧ p.b ≤ 239) (hex : String)
    (hmem : hex ∈ (categorizeColors (extractColors pixels 5)).dominant ∨
            hex ∈ (categorizeColors (extractColors pixels 5)).vibrant ∨
            hex ∈ (categorizeColors (extractColors pixels 5)).muted) :
    ∃ rgb, hexToRgb hex = .ok rgb := by
  have hcl := categorizeLists_mem (extractColors pixels 5)
  have hex_from : ∃ c ∈ extractColors pixels 5, hex = rgbToHex c := by
    rcases hmem with hm | hm | hm
    · exact hcl.1 hex (List.take_subset _ _ (by simpa [categorizeColors] using hm))
    · exact hcl.2.1 hex (List.take_subset _ _ (by simpa [categorizeColors] using hm))
    · exact hcl.2.2 hex (List.take_subset _ _ (by simpa [categorizeColors] using hm))
  obtain ⟨c, hc, rfl⟩ := hex_from
  have hb := extractColors_le pixels 5 h c hc
  exact ⟨c, hexToRgb_rgbToHex c (by omega) (by omega) (by omega)⟩

/-- A zero channel quantizes to zero. -/
theorem quantize_zero : quantize 0 = 0 := by
  norm_num [quantize, jsRound]

/-- Quantization of channel 50: `Math.round(50 / 32) * 32 = 64`. -/
theorem quantize_fifty : quantize 50 = 64 := by
  have h : ⌊(50 : ℚ) / 32 + 1 / 2⌋ = 2 := by norm_num [Int.floor_eq_iff]
  norm_num [quantize, jsRound, h]
  rfl

/-- Quantization of channel 100: `Math.round(100 / 32) * 32 = 96`. -/
theorem quantize_hundred : quantize 100 = 96 := by
  have h : ⌊(100 : ℚ) / 32 + 1 / 2⌋ = 3 := by norm_num [Int.floor_eq_iff]
  norm_num [quantize, jsRound, h]
  rfl

/-- Extraction of a single fully-red opaque pixel: the red channel passes the
brightness filter (average 85) but quantizes to `256`. -/
theorem extract_red_pixel : extractColors [⟨255, 0, 0, 255⟩] 5 = [⟨256, 0, 0⟩] := by
  have hq : quantize 255 = 256 :=
    quantize_eq_256_of_ge 255 (by norm_num) (by norm_num)
  have h : (sampleEvery4 [⟨255, 0, 0, 255⟩]).foldl countPixel [] =
      [(⟨256, 0, 0⟩, 1)] := by
    have hs : sampleEvery4 [⟨255, 0, 0, 255⟩] = [⟨255, 0, 0, 255⟩] := rfl
    rw [hs]
    simp only [List.foldl_cons, List.foldl_nil, countPixel]
    norm_num [hq, quantize_zero, bump]
  simp [extractColors, h, List.mergeSort_singleton]

set_option maxRecDepth 4000 in
/-- Counterexample to C10 as stated: a buffer with one red pixel
`(255, 0, 0, 255)` survives the filters, quantizes to channel 256, and the
palette then contains the 7-hex-digit string "#1000000", which `hexToRgb`
rejects — the error branch is reachable on extractor output. -/
theorem extractor_invalid_hex_counterexample :
    (categorizeColors (extractColors [⟨255, 0, 0, 255⟩] 5)).dominant =
      ["#1000000"] ∧
    hexToRgb "#1000000" = .error "Invalid hex color: #1000000" := by
  rw [extract_red_pixel]
  exact ⟨by decide, rfl⟩

/-- Extraction of a single muted dark-red opaque pixel, whose channels all
quantize within the byte range. -/
theorem extract_dark_pixel :
    extractColors [⟨100, 50, 50, 255⟩] 5 = [⟨96, 64, 64⟩] := by
  have h : (sampleEvery4 [⟨100, 50, 50, 255⟩]).foldl countPixel [] =
      [(⟨96, 64, 64⟩, 1)] := by
    have hs : sampleEvery4 [⟨100, 50, 50, 255⟩] = [⟨100, 50, 50, 255⟩] := rfl
    rw [hs]
    simp only [List.foldl_cons, List.foldl_nil, countPixel]
    norm_num [quantize_hundred, quantize_fifty, bump]
  simp [extractColors, h, List.mergeSort_singleton]

set_option maxRecDepth 4000 in
/-- Witness for C10 (amended): the palette hex produced from the sub-240
pixel buffer is accepted by `hexToRgb`. -/
theorem extractor_hex_valid_witness : ∃ rgb, hexToRgb "#604040" = .ok rgb :=
  extractor_hex_valid [⟨100, 50, 50, 255⟩] (by decide) "#604040"
    (Or.inl (by rw [extract_dark_pixel]; decide))

/-! ## WCAG luminance lemmas -/

/-- Channel linearization is nonnegative. -/
theorem srgbLin_nonneg (c : ℝ) (hc : 0 ≤ c) : 0 ≤ srgbLin c := by
  unfold srgbLin
  split
  · positivity
  · exact Real.rpow_nonneg (by positivity) _

/-- Channel linearization is at most one on `[0, 1]`. -/
theorem srgbLin_le_one (c : ℝ) (h0 : 0 ≤ c) (h1 : c ≤ 1) : srgbLin c ≤ 1 := by
  unfold srgbLin
  split
  · calc c / 12.92 ≤ 1 / 12.92 := by gcongr
      _ ≤ 1 := by norm_num
  · refine Real.rpow_le_one (by positivity) ?_ (by norm_num)
    rw [div_le_one (by norm_num)]
    linarith

/-- Channel linearization of a saturated channel equals one. -/
theorem srgbLin_one : srgbLin 1 = 1 := by
  unfold srgbLin
  rw [if_neg (by norm_num)]
  norm_num

/-- Channel linearization is bounded by the square of the gamma argument:
`((c + 0.055) / 1.055) ^ 2.4 ≤ ((c + 0.055) / 1.055) ^ 2` on `[0, 1]`, and
the linear branch is below the square as well. -/
theorem srgbLin_le_sq (c : ℝ) (h0 : 0 ≤ c) (h1 : c ≤ 1) :
    srgbLin c ≤ ((c + 0.055) / 1.055) ^ 2 := by
  unfold srgbLin
  split
  · rw [div_pow, div_le_div_iff (by norm_num) (by positivity)]
    nlinarith [sq_nonneg c]
  · have hx0 : (0 : ℝ) < (c + 0.055) / 1.055 := by positivity
    have hx1 : (c + 0.055) / 1.055 ≤ 1 := by
      rw [div_le_one (by norm_num)]
      linarith
    have h24 : ((c + 0.055) / 1.055) ^ (2.4 : ℝ) ≤
        ((c + 0.055) / 1.055) ^ ((2 : ℕ) : ℝ) :=
      Real.rpow_le_rpow_of_exponent_ge hx0 hx1 (by norm_num)
    rwa [Real.rpow_natCast] at h24

/-- Relative luminance is nonnegative. -/
theorem lum_nonneg (rgb : RGB) : 0 ≤ getRelativeLuminance rgb := by
  unfold getRelativeLuminance
  have h1 := srgbLin_nonneg ((rgb.r : ℝ) / 255) (by positivity)
  have h2 := srgbLin_nonneg ((rgb.g : ℝ) / 255) (by positivity)
  have h3 := srgbLin_nonneg ((rgb.b : ℝ) / 255) (by positivity)
  nlinarith

/-- Relative luminance of white is exactly one. -/
theorem lum_white : getRelativeLuminance ⟨255, 255, 255⟩ = 1 := by
  unfold getRelativeLuminance
  have h : ((255 : ℕ) : ℝ) / 255 = 1 := by norm_num
  rw [h, srgbLin_one]
  norm_num

/-- Relative luminance of byte-valued channels is at most one. -/
theorem lum_le_one (rgb : RGB) (hr : rgb.r ≤ 255) (hg : rgb.g ≤ 255)
    (hb : rgb.b ≤ 255) : getRelativeLuminance rgb ≤ 1 := by
  unfold getRelativeLuminance
  have c1 : ((rgb.r : ℝ)) / 255 ≤ 1 := by
    rw [div_le_one (by norm_num)]; exact_mod_cast hr
  have c2 : ((rgb.g : ℝ)) / 255 ≤ 1 := by
    rw [div_le_one (by norm_num)]; exact_mod_cast hg
  have c3 : ((rgb.b : ℝ)) / 255 ≤ 1 := by
    rw [div_le_one (by norm_num)]; exact_mod_cast hb
  have h1 := srgbLin_le_one _ (by positivity) c1
  have h2 := srgbLin_le_one _ (by positivity) c2
  have h3 := srgbLin_le_one _ (by positivity) c3
  nlinarith

/-- Luminance bound from a common channel bound `B`: every channel at most
`B ≤ 255` gives luminance at most `((B / 255 + 0.055) / 1.055) ^ 2`. -/
theorem lum_le_of_channels_le (rgb : RGB) (B : ℕ) (hB : B ≤ 255)
    (hr : rgb.r ≤ B) (hg : rgb.g ≤ B) (hb : rgb.b ≤ B) :
    getRelativeLuminance rgb ≤ (((B : ℝ) / 255 + 0.055) / 1.055) ^ 2 := by
  have hBr : ((B : ℝ)) / 255 ≤ 1 := by
    rw [div_le_one (by norm_num)]; exact_mod_cast hB
  have bound : ∀ c : ℕ, c ≤ B →
      srgbLin ((c : ℝ) / 255) ≤ (((B : ℝ) / 255 + 0.055) / 1.055) ^ 2 := by
    intro c hc
    have hcB : ((c : ℝ)) / 255 ≤ ((B : ℝ)) / 255 := by
      apply div_le_div_of_nonneg_right ?_ (by norm_num)
      exact_mod_cast hc
    calc srgbLin ((c : ℝ) / 255) ≤ (((c : ℝ) / 255 + 0.055) / 1.055) ^ 2 :=
          srgbLin_le_sq _ (by positivity) (le_trans hcB hBr)
      _ ≤ (((B : ℝ) / 255 + 0.055) / 1.055) ^ 2 := by
          apply pow_le_pow_left (by positivity)
          apply div_le_div_of_nonneg_right ?_ (by norm_num)
          linarith
  have h1 := bound rgb.r hr
  have h2 := bound rgb.g hg
  have h3 := bound rgb.b hb
  have hM : (0 : ℝ) ≤ (((B : ℝ) / 255 + 0.055) / 1.055) ^ 2 := by positivity
  unfold getRelativeLuminance
  nlinarith

/-- Evaluation of `getContrastRatio` when both colors parse. -/
theorem getContrastRatio_ok (c1 c2 : String) (rgb1 rgb2 : RGB)
    (h1 : hexToRgb c1 = .ok rgb1) (h2 : hexToRgb c2 = .ok rgb2) :
    getContrastRatio c1 c2 =
      .ok ((max (getRelativeLuminance rgb1) (getRelativeLuminance rgb2) + 0.05) /
           (min (getRelativeLuminance rgb1) (getRelativeLuminance rgb2) + 0.05)) := by
  simp only [getContrastRatio, h1, h2]

/-! ## Contrast color choice: claim C7 -/

/-- Linearization of the saturated channel expression. -/
theorem srgbLin_255 : srgbLin (((255 : ℕ) : ℝ) / 255) = 1 := by
  rw [show (((255 : ℕ) : ℝ)) / 255 = 1 by norm_num]
  exact srgbLin_one

/-- Luminance of `#0101ff` written out channel-wise. -/
theorem lum_0101ff_eq : getRelativeLuminance ⟨1, 1, 255⟩ =
    0.2126 * srgbLin (((1 : ℕ) : ℝ) / 255) +
    0.7152 * srgbLin (((1 : ℕ) : ℝ) / 255) +
    0.0722 * srgbLin (((255 : ℕ) : ℝ) / 255) := rfl

/-- The luminance of `#0101ff` lies in `[0.0722, 0.0725]`. -/
theorem lum_0101ff_bounds :
    0.0722 ≤ getRelativeLuminance ⟨1, 1, 255⟩ ∧
    getRelativeLuminance ⟨1, 1, 255⟩ ≤ 0.0725 := by
  have h1 : srgbLin (((1 : ℕ) : ℝ) / 255) = ((1 : ℕ) : ℝ) / 255 / 12.92 := by
    unfold srgbLin
    rw [if_pos (by norm_num)]
  rw [lum_0101ff_eq, srgbLin_255, h1]
  norm_num

/-- The luminance of the near-black `#111827` is at most `0.039`. -/
theorem lum_111827_ub : getRelativeLuminance ⟨17, 24, 39⟩ ≤ 0.039 := by
  have h := lum_le_of_channels_le ⟨17, 24, 39⟩ 39 (by norm_num) (by norm_num)
    (by norm_num) (by norm_num)
  calc getRelativeLuminance ⟨17, 24, 39⟩ ≤
        ((((39 : ℕ) : ℝ) / 255 + 0.055) / 1.055) ^ 2 := h
    _ ≤ 0.039 := by norm_num

/-- HSL of the counterexample color `#0101ff`: hue 240, full saturation,
lightness `128/255`. -/
theorem rgbToHsl_0101ff : rgbToHsl ⟨1, 1, 255⟩ = ⟨240, 1, 128 / 255⟩ := by
  unfold rgbToHsl
  norm_num [max_def, min_def]

/-- `findMostVibrant` on the single color `#0101ff` returns it. -/
theorem findMostVibrant_0101ff :
    findMostVibrant ["#0101ff"] = .ok "#0101ff" := by
  unfold findMostVibrant
  have habs : |(128 : ℚ) / 255 - 0.5| = 1 / 510 := by
    rw [abs_of_nonneg (by norm_num)]
    norm_num
  simp only [List.foldlM_cons, List.foldlM_nil,
    show hexToRgb "#0101ff" = Except.ok ⟨1, 1, 255⟩ from rfl,
    rgbToHsl_0101ff, habs, List.headD_cons]
  rw [if_pos (by norm_num)]
  rfl

/-- Evaluation of `generateAccentPalette` on the single color `#0101ff`:
its HSL lightness is `128/255 > 0.5`, so the applied contrast color is the
near-black `#111827`. -/
theorem gen_0101ff_eval :
    generateAccentPalette ["#0101ff"] =
      .ok ⟨"#0101ff",
           hslToHex ⟨qmod ((rgbToHsl ⟨1, 1, 255⟩).h + 15) 360,
                     max 0.4 ((rgbToHsl ⟨1, 1, 255⟩).s - 0.1),
                     min 0.6 ((rgbToHsl ⟨1, 1, 255⟩).l + 0.1)⟩,
           hslToHex ⟨(rgbToHsl ⟨1, 1, 255⟩).h,
                     max 0.3 ((rgbToHsl ⟨1, 1, 255⟩).s - 0.2), 0.95⟩,
           "#111827"⟩ := by
  have hl : (rgbToHsl ⟨1, 1, 255⟩).l > 0.5 := by
    rw [rgbToHsl_0101ff]; norm_num
  simp only [generateAccentPalette, List.isEmpty_cons, findMostVibrant_0101ff,
    show hexToRgb "#0101ff" = Except.ok ⟨1, 1, 255⟩ from rfl, if_pos hl]
  simp

/-- Counterexample to C7 as stated: for the dominant list `["#0101ff"]` the
palette's contrast color is the near-black `#111827` (chosen because the HSL
lightness of the primary exceeds 0.5), yet white yields the strictly higher
contrast ratio against the applied primary. -/
theorem palette_contrast_counterexample :
    Except.map AccentPalette.contrast (generateAccentPalette ["#0101ff"]) =
      .ok "#111827" ∧
    getContrastRatio "#ffffff" "#0101ff" =
      .ok ((max (getRelativeLuminance ⟨255, 255, 255⟩)
              (getRelativeLuminance ⟨1, 1, 255⟩) + 0.05) /
           (min (getRelativeLuminance ⟨255, 255, 255⟩)
              (getRelativeLuminance ⟨1, 1, 255⟩) + 0.05)) ∧
    getContrastRatio "#111827" "#0101ff" =
      .ok ((max (getRelativeLuminance ⟨17, 24, 39⟩)
              (getRelativeLuminance ⟨1, 1, 255⟩) + 0.05) /
           (min (getRelativeLuminance ⟨17, 24, 39⟩)
              (getRelativeLuminance ⟨1, 1, 255⟩) + 0.05)) ∧
    (max (getRelativeLuminance ⟨17, 24, 39⟩)
        (getRelativeLuminance ⟨1, 1, 255⟩) + 0.05) /
      (min (getRelativeLuminance ⟨17, 24, 39⟩)
        (getRelativeLuminance ⟨1, 1, 255⟩) + 0.05) <
    (max (getRelativeLuminance ⟨255, 255, 255⟩)
        (getRelativeLuminance ⟨1, 1, 255⟩) + 0.05) /
      (min (getRelativeLuminance ⟨255, 255, 255⟩)
        (getRelativeLuminance ⟨1, 1, 255⟩) + 0.05) := by
  obtain ⟨hLp_lb, hLp_ub⟩ := lum_0101ff_bounds
  have hnb_lb := lum_nonneg ⟨17, 24, 39⟩
  have hnb_ub := lum_111827_ub
  refine ⟨by rw [gen_0101ff_eval]; rfl,
          getContrastRatio_ok _ _ _ _ rfl rfl,
          getContrastRatio_ok _ _ _ _ rfl rfl, ?_⟩
  rw [lum_white]
  have h1 : max (getRelativeLuminance ⟨17, 24, 39⟩)
      (getRelativeLuminance ⟨1, 1, 255⟩) = getRelativeLuminance ⟨1, 1, 255⟩ :=
    max_eq_right (by linarith)
  have h2 : min (getRelativeLuminance ⟨17, 24, 39⟩)
      (getRelativeLuminance ⟨1, 1, 255⟩) = getRelativeLuminance ⟨17, 24, 39⟩ :=
    min_eq_left (by linarith)
  have h3 : max (1 : ℝ) (getRelativeLuminance ⟨1, 1, 255⟩) = 1 :=
    max_eq_left (by linarith)
  have h4 : min (1 : ℝ) (getRelativeLuminance ⟨1, 1, 255⟩) =
      getRelativeLuminance ⟨1, 1, 255⟩ :=
    min_eq_right (by linarith)
  rw [h1, h2, h3, h4]
  rw [div_lt_div_iff (by linarith) (by linarith)]
  have key : (getRelativeLuminance ⟨1, 1, 255⟩ + 0.05) *
      (getRelativeLuminance ⟨1, 1, 255⟩ + 0.05) ≤ 0.1225 * 0.1225 := by
    nlinarith
  nlinarith

/-- C7 (amended): for every non-empty dominant list, the palette's contrast
color is white or the near-black `#111827`; it is chosen by the HSL lightness
of the primary (`#111827` iff lightness exceeds 0.5), not by the contrast
ratio. -/
theorem palette_contrast_by_lightness (colors : List String)
    (pal : AccentPalette) (hne : colors ≠ [])
    (h : generateAccentPalette colors = .ok pal) :
    (pal.contrast = "#111827" ∨ pal.contrast = "#ffffff") ∧
    ∀ rgb, hexToRgb pal.primary = .ok rgb →
      pal.contrast = if (rgbToHsl rgb).l > 0.5 then "#111827" else "#ffffff" := by
  have hemp : ¬(colors.isEmpty = true) := by
    simpa [List.isEmpty_iff] using hne
  unfold generateAccentPalette at h
  rw [if_neg hemp] at h
  cases hfv : findMostVibrant colors with
  | error e => simp [hfv] at h
  | ok primaryColor =>
      simp only [hfv] at h
      cases hrgb : hexToRgb primaryColor with
      | error e => simp [hrgb] at h
      | ok primaryRgb =>
          simp only [hrgb] at h
          simp only [Except.ok.injEq] at h
          subst h
          constructor
          · by_cases hl : (rgbToHsl primaryRgb).l > 0.5
            · left; simp [if_pos hl]
            · right; simp [if_neg hl]
          · intro rgb hrgb2
            have hrgb2' : hexToRgb primaryColor = Except.ok rgb := hrgb2
            rw [hrgb] at hrgb2'
            simp only [Except.ok.injEq] at hrgb2'
            subst hrgb2'
            rfl

/-- Witness for C7 (amended): the palette generated from `["#0101ff"]` has a
contrast color that is white or near-black. -/
theorem palette_contrast_by_lightness_witness :
    (AccentPalette.mk "#0101ff"
        (hslToHex ⟨qmod ((rgbToHsl ⟨1, 1, 255⟩).h + 15) 360,
                   max 0.4 ((rgbToHsl ⟨1, 1, 255⟩).s - 0.1),
                   min 0.6 ((rgbToHsl ⟨1, 1, 255⟩).l + 0.1)⟩)
        (hslToHex ⟨(rgbToHsl ⟨1, 1, 255⟩).h,
                   max 0.3 ((rgbToHsl ⟨1, 1, 255⟩).s - 0.2), 0.95⟩)
        "#111827").contrast = "#111827" ∨
    (AccentPalette.mk "#0101ff"
        (hslToHex ⟨qmod ((rgbToHsl ⟨1, 1, 255⟩).h + 15) 360,
                   max 0.4 ((rgbToHsl ⟨1, 1, 255⟩).s - 0.1),
                   min 0.6 ((rgbToHsl ⟨1, 1, 255⟩).l + 0.1)⟩)
        (hslToHex ⟨(rgbToHsl ⟨1, 1, 255⟩).h,
                   max 0.3 ((rgbToHsl ⟨1, 1, 255⟩).s - 0.2), 0.95⟩)
        "#111827").contrast = "#ffffff" :=
  (palette_contrast_by_lightness ["#0101ff"] _ (by simp) gen_0101ff_eval).1

/-! ## Accessibility validation: claim C2 -/

/-- A parsed hexadecimal digit is at most 15. -/
theorem hexDigitVal_le (c : Char) (a : ℕ) (h : hexDigitVal c = some a) :
    a ≤ 15 := by
  unfold hexDigitVal at h
  split_ifs at h with h1 h2 h3 <;>
    simp only [Option.some.injEq] at h <;> subst h <;> omega

/-- Channels produced by `hexToRgb` are bytes (two hex digits each). -/
theorem hexToRgb_channels_le (s : String) (rgb : RGB)
    (h : hexToRgb s = .ok rgb) :
    rgb.r ≤ 255 ∧ rgb.g ≤ 255 ∧ rgb.b ≤ 255 := by
  unfold hexToRgb at h
  split at h
  next c1 c2 c3 c4 c5 c6 hcs =>
    cases hv1 : hexDigitVal c1 with
    | none => simp [hv1] at h
    | some a =>
    cases hv2 : hexDigitVal c2 with
    | none => simp [hv1, hv2] at h
    | some b =>
    cases hv3 : hexDigitVal c3 with
    | none => simp [hv1, hv2, hv3] at h
    | some c =>
    cases hv4 : hexDigitVal c4 with
    | none => simp [hv1, hv2, hv3, hv4] at h
    | some d =>
    cases hv5 : hexDigitVal c5 with
    | none => simp [hv1, hv2, hv3, hv4, hv5] at h
    | some e =>
    cases hv6 : hexDigitVal c6 with
    | none => simp [hv1, hv2, hv3, hv4, hv5, hv6] at h
    | some f =>
      simp only [hv1, hv2, hv3, hv4, hv5, hv6, Except.ok.injEq] at h
      subst h
      have := hexDigitVal_le _ _ hv1
      have := hexDigitVal_le _ _ hv2
      have := hexDigitVal_le _ _ hv3
      have := hexDigitVal_le _ _ hv4
      have := hexDigitVal_le _ _ hv5
      have := hexDigitVal_le _ _ hv6
      refine ⟨?_, ?_, ?_⟩ <;> dsimp only <;> omega
  next => simp at h

set_option maxHeartbeats 1000000 in
/-- Range of `rgbToHsl` on byte-valued channels: hue in `[0, 360]`,
saturation and lightness in `[0, 1]`. -/
theorem rgbToHsl_bounds (rgb : RGB) (hr : rgb.r ≤ 255) (hg : rgb.g ≤ 255)
    (hb : rgb.b ≤ 255) (hsl : HSL) (heq : rgbToHsl rgb = hsl) :
    0 ≤ hsl.h ∧ hsl.h ≤ 360 ∧ 0 ≤ hsl.s ∧ hsl.s ≤ 1 ∧
    0 ≤ hsl.l ∧ hsl.l ≤ 1 := by
  simp only [rgbToHsl] at heq
  set r : ℚ := (rgb.r : ℚ) / 255 with hrdef
  set g : ℚ := (rgb.g : ℚ) / 255 with hgdef
  set b : ℚ := (rgb.b : ℚ) / 255 with hbdef
  have hr0 : 0 ≤ r := by positivity
  have hg0 : 0 ≤ g := by positivity
  have hb0 : 0 ≤ b := by positivity
  have hr1 : r ≤ 1 := by
    rw [hrdef, div_le_one (by norm_num)]; exact_mod_cast hr
  have hg1 : g ≤ 1 := by
    rw [hgdef, div_le_one (by norm_num)]; exact_mod_cast hg
  have hb1 : b ≤ 1 := by
    rw [hbdef, div_le_one (by norm_num)]; exact_mod_cast hb
  set maxc := max r (max g b) with hmaxdef
  set minc := min r (min g b) with hmindef
  have hrmax : r ≤ maxc := le_max_left _ _
  have hgmax : g ≤ maxc := le_max_of_le_right (le_max_left _ _)
  have hbmax : b ≤ maxc := le_max_of_le_right (le_max_right _ _)
  have hrmin : minc ≤ r := min_le_left _ _
  have hgmin : minc ≤ g := le_trans (min_le_right _ _) (min_le_left _ _)
  have hbmin : minc ≤ b := le_trans (min_le_right _ _) (min_le_right _ _)
  have hmin0 : 0 ≤ minc := le_min hr0 (le_min hg0 hb0)
  have hmax1 : maxc ≤ 1 := max_le hr1 (max_le hg1 hb1)
  have hminmax : minc ≤ maxc := le_trans hrmin hrmax
  have hlemma : maxc = minc ∨ minc < maxc := by
    rcases eq_or_lt_of_le hminmax with h | h
    · exact Or.inl h.symm
    · exact Or.inr h
  rcases hlemma with hmm | hlt
  · rw [if_pos hmm] at heq
    subst heq
    refine ⟨le_refl 0, by norm_num, le_refl 0, by norm_num, ?_, ?_⟩ <;>
      dsimp only <;> linarith
  · have hmm : ¬(maxc = minc) := ne_of_gt hlt
    rw [if_neg hmm] at heq
    have hd : (0 : ℚ) < maxc - minc := by linarith
    have hden2 : (0 : ℚ) < 2 - maxc - minc := by
      have : minc < 1 := lt_of_lt_of_le hlt hmax1
      linarith
    have hdenM : (0 : ℚ) < maxc + minc := by linarith
    have hsA0 : 0 ≤ (maxc - minc) / (2 - maxc - minc) :=
      div_nonneg hd.le hden2.le
    have hsA1 : (maxc - minc) / (2 - maxc - minc) ≤ 1 :=
      (div_le_one hden2).mpr (by linarith)
    have hsB0 : 0 ≤ (maxc - minc) / (maxc + minc) :=
      div_nonneg hd.le hdenM.le
    have hsB1 : (maxc - minc) / (maxc + minc) ≤ 1 :=
      (div_le_one hdenM).mpr (by linarith)
    have hfrac : ∀ x y : ℚ, minc ≤ x → x ≤ maxc → minc ≤ y → y ≤ maxc →
        -1 ≤ (x - y) / (maxc - minc) ∧ (x - y) / (maxc - minc) ≤ 1 := by
      intro x y hx1 hx2 hy1 hy2
      exact ⟨(le_div_iff hd).mpr (by linarith),
             (div_le_one hd).mpr (by linarith)⟩
    obtain ⟨hgb1, hgb2⟩ := hfrac g b hgmin hgmax hbmin hbmax
    obtain ⟨hbr1, hbr2⟩ := hfrac b r hbmin hbmax hrmin hrmax
    obtain ⟨hrg1, hrg2⟩ := hfrac r g hrmin hrmax hgmin hgmax
    split_ifs at heq <;> subst heq <;>
      refine ⟨?_, ?_, ?_, ?_, by dsimp only; linarith, by dsimp only; linarith⟩ <;>
      dsimp only <;>
      first
        | exact hsA0
        | exact hsA1
        | exact hsB0
        | exact hsB1
        | linarith
        | (have ht : (g - b) / (maxc - minc) ≤ 0 := by
             rw [div_nonpos_iff]
             right
             constructor <;> linarith
           linarith)
        | (have ht : 0 ≤ (g - b) / (maxc - minc) :=
             div_nonneg (by linarith) hd.le
           linarith)

set_option maxHeartbeats 1000000 in
/-- The `hue2rgb` helper stays within `[p, q]` (hence within `[0, q]`) for the
shifted hue arguments that `hslToHex` passes it. -/
theorem hue2rgb_mem (p q t : ℚ) (hp : 0 ≤ p) (hpq : p ≤ q)
    (ht1 : -(1 / 3) ≤ t) (ht2 : t ≤ 4 / 3) :
    0 ≤ hue2rgb p q t ∧ hue2rgb p q t ≤ q := by
  have hqp : 0 ≤ q - p := sub_nonneg.mpr hpq
  simp only [hue2rgb]
  constructor <;> split_ifs <;> nlinarith [hqp, hp]

/-- Rounding a channel value at most `1/5` gives a byte at most 51. -/
theorem round255_le_of_le (x : ℚ) (h : x ≤ 1 / 5) : round255 x ≤ 51 := by
  have hle : x * 255 + 1 / 2 ≤ (51 : ℚ) + 1 / 2 := by linarith
  have h2 : (⌊x * 255 + 1 / 2⌋ : ℤ) ≤ ⌊(51 : ℚ) + 1 / 2⌋ :=
    Int.floor_le_floor hle
  have h3 : ⌊(51 : ℚ) + 1 / 2⌋ = 51 := by norm_num [Int.floor_eq_iff]
  unfold round255 jsRound
  rw [Int.toNat_le]
  exact_mod_cast le_trans h2 (le_of_eq h3)

/-- On HSL inputs with lightness at most `1/10` (and hue/saturation in range),
`hslToHex` produces channels at most 51. -/
theorem hslToHex_le51 (hsl : HSL) (hh0 : 0 ≤ hsl.h) (hh1 : hsl.h ≤ 360)
    (hs0 : 0 ≤ hsl.s) (hs1 : hsl.s ≤ 1) (hl0 : 0 ≤ hsl.l)
    (hl1 : hsl.l ≤ 1 / 10) :
    ∃ c : RGB, hslToHex hsl = rgbToHex c ∧ c.r ≤ 51 ∧ c.g ≤ 51 ∧ c.b ≤ 51 := by
  have hh360 : 0 ≤ hsl.h / 360 ∧ hsl.h / 360 ≤ 1 := by
    constructor
    · positivity
    · rw [div_le_one (by norm_num)]; linarith
  simp only [hslToHex]
  by_cases hs : hsl.s = 0
  · rw [if_pos hs]
    refine ⟨_, rfl, ?_, ?_, ?_⟩ <;>
      exact round255_le_of_le _ (by linarith)
  · rw [if_neg hs]
    rw [if_pos (show hsl.l < 1 / 2 by linarith)]
    have hq0 : 0 ≤ hsl.l * (1 + hsl.s) := by nlinarith
    have hqB : hsl.l * (1 + hsl.s) ≤ 1 / 5 := by nlinarith
    have hp0 : 0 ≤ 2 * hsl.l - hsl.l * (1 + hsl.s) := by nlinarith
    have hpq : 2 * hsl.l - hsl.l * (1 + hsl.s) ≤ hsl.l * (1 + hsl.s) := by
      nlinarith
    have hb1 := hue2rgb_mem (2 * hsl.l - hsl.l * (1 + hsl.s))
      (hsl.l * (1 + hsl.s)) (hsl.h / 360 + 1 / 3) hp0 hpq
      (by linarith [hh360.1]) (by linarith [hh360.2])
    have hb2 := hue2rgb_mem (2 * hsl.l - hsl.l * (1 + hsl.s))
      (hsl.l * (1 + hsl.s)) (hsl.h / 360) hp0 hpq
      (by linarith [hh360.1]) (by linarith [hh360.2])
    have hb3 := hue2rgb_mem (2 * hsl.l - hsl.l * (1 + hsl.s))
      (hsl.l * (1 + hsl.s)) (hsl.h / 360 - 1 / 3) hp0 hpq
      (by linarith [hh360.1]) (by linarith [hh360.2])
    refine ⟨_, rfl, ?_, ?_, ?_⟩
    · exact round255_le_of_le _ (by linarith [hb1.2])
    · exact round255_le_of_le _ (by linarith [hb2.2])
    · exact round255_le_of_le _ (by linarith [hb3.2])

/-- A color whose channels are all at most 51 has contrast ratio at least 4.5
against white. -/
theorem contrast_white_of_dark (c : RGB) (hr : c.r ≤ 51) (hg : c.g ≤ 51)
    (hb : c.b ≤ 51) :
    ∃ ratio, getContrastRatio (rgbToHex c) "#ffffff" = .ok ratio ∧
      4.5 ≤ ratio := by
  have hparse := hexToRgb_rgbToHex c (by omega) (by omega) (by omega)
  have heq := getContrastRatio_ok (rgbToHex c) "#ffffff" c ⟨255, 255, 255⟩
    hparse rfl
  rw [lum_white] at heq
  have hub : getRelativeLuminance c ≤ ((((51 : ℕ) : ℝ) / 255 + 0.055) / 1.055) ^ 2 :=
    lum_le_of_channels_le c 51 (by norm_num) hr hg hb
  have hub' : getRelativeLuminance c ≤ 0.0585 := by
    calc getRelativeLuminance c ≤ ((((51 : ℕ) : ℝ) / 255 + 0.055) / 1.055) ^ 2 := hub
      _ ≤ 0.0585 := by norm_num
  have hnn := lum_nonneg c
  rw [max_eq_right (by linarith), min_eq_left (by linarith)] at heq
  refine ⟨_, heq, ?_⟩
  rw [le_div_iff (by linarith)]
  linarith

/-- A contrast check that comes back `ok true` certifies a ratio of at
least 4.5. -/
theorem meets_true_ratio (fg bg : String)
    (h : meetsAccessibilityStandards fg bg .AA = .ok true) :
    ∃ r, getContrastRatio fg bg = .ok r ∧ 4.5 ≤ r := by
  unfold meetsAccessibilityStandards at h
  cases hcr : getContrastRatio fg bg with
  | error e => rw [hcr] at h; simp at h
  | ok r =>
      rw [hcr] at h
      refine ⟨r, rfl, ?_⟩
      simp only [Except.ok.injEq] at h
      simp only [decide_eq_true_eq] at h
      simpa using h

/-- A ratio of at least 4.5 makes the AA contrast check return `ok true`. -/
theorem meets_of_ratio (fg bg : String) (r : ℝ)
    (hcr : getContrastRatio fg bg = .ok r) (h45 : 4.5 ≤ r) :
    meetsAccessibilityStandards fg bg .AA = .ok true := by
  unfold meetsAccessibilityStandards
  rw [hcr]
  simp only [Except.ok.injEq, decide_eq_true_eq]
  simpa using h45

/-- The darkening loop of `adjustColorForContrast` against a white background:
with fuel `n` and lightness at most `1/10 + n/20`, every successful result
meets the 4.5:1 ratio — the lightness floor of 0.1 is reached within the
attempt budget, and any color that light-dark always passes. -/
theorem adjustLoop_meets (n : ℕ) (hsl : HSL)
    (hh0 : 0 ≤ hsl.h) (hh1 : hsl.h ≤ 360) (hs0 : 0 ≤ hsl.s) (hs1 : hsl.s ≤ 1)
    (hl0 : 0 ≤ hsl.l) (hlB : hsl.l ≤ 1 / 10 + 1 / 20 * (n : ℚ)) (res : String)
    (hres : ThemeManager.adjustLoop "#ffffff" n hsl = .ok res) :
    ∃ r, getContrastRatio res "#ffffff" = .ok r ∧ 4.5 ≤ r := by
  induction n generalizing hsl with
  | zero =>
      simp only [ThemeManager.adjustLoop, Except.ok.injEq] at hres
      subst hres
      obtain ⟨c, hc, h51r, h51g, h51b⟩ :=
        hslToHex_le51 hsl hh0 hh1 hs0 hs1 hl0 (by push_cast at hlB; linarith)
      rw [hc]
      exact contrast_white_of_dark c h51r h51g h51b
  | succ n ih =>
      rw [ThemeManager.adjustLoop] at hres
      cases hm : meetsAccessibilityStandards (hslToHex hsl) "#ffffff" .AA with
      | error e => rw [hm] at hres; simp at hres
      | ok b =>
          rw [hm] at hres
          cases b with
          | true =>
              simp only [Except.ok.injEq] at hres
              subst hres
              exact meets_true_ratio _ _ hm
          | false =>
              refine ih { hsl with l := max 0.1 (hsl.l - 0.05) } hh0 hh1 hs0 hs1
                ?_ ?_ hres
              · exact le_trans (by norm_num) (le_max_left _ _)
              · apply max_le
                · have : (0 : ℚ) ≤ 1 / 20 * (n : ℚ) := by positivity
                  norm_num
                · push_cast at hlB ⊢
                  linarith

/-- Any color successfully adjusted against white meets the AA ratio. -/
theorem adjust_meets (color res : String)
    (h : ThemeManager.adjustColorForContrast color "#ffffff" = .ok res) :
    ∃ r, getContrastRatio res "#ffffff" = .ok r ∧ 4.5 ≤ r := by
  unfold ThemeManager.adjustColorForContrast at h
  cases hp : hexToRgb color with
  | error e => rw [hp] at h; simp at h
  | ok rgb =>
      rw [hp] at h
      obtain ⟨hcr, hcg, hcb⟩ := hexToRgb_channels_le color rgb hp
      obtain ⟨hh0, hh1, hs0, hs1, hl0, hl1⟩ :=
        rgbToHsl_bounds rgb hcr hcg hcb (rgbToHsl rgb) rfl
      exact adjustLoop_meets 20 (rgbToHsl rgb) hh0 hh1 hs0 hs1 hl0
        (by push_cast; linarith) res h

/-- Shape of `validateAccessibility` on success: the returned primary is the
input primary when it already met the AA check, and the adjusted color
otherwise. -/
theorem validateAccessibility_primary (p out : AccentPalette)
    (h : ThemeManager.validateAccessibility p = .ok out) :
    (meetsAccessibilityStandards p.primary "#ffffff" .AA = .ok true ∧
      out.primary = p.primary) ∨
    (meetsAccessibilityStandards p.primary "#ffffff" .AA = .ok false ∧
      ThemeManager.adjustColorForContrast p.primary "#ffffff" =
        .ok out.primary) := by
  unfold ThemeManager.validateAccessibility at h
  cases hm : meetsAccessibilityStandards p.primary "#ffffff" .AA with
  | error e => rw [hm] at h; simp at h
  | ok pOk =>
      rw [hm] at h
      cases hpr : (if pOk = true then Except.ok p.primary
          else ThemeManager.adjustColorForContrast p.primary "#ffffff") with
      | error e => simp only [hpr] at h; simp at h
      | ok primary =>
          simp only [hpr] at h
          cases hms : meetsAccessibilityStandards p.secondary "#ffffff" .AA with
          | error e => rw [hms] at h; simp at h
          | ok sOk =>
              rw [hms] at h
              cases hsec : (if sOk = true then Except.ok p.secondary
                  else ThemeManager.adjustColorForContrast p.secondary
                    "#ffffff") with
              | error e => simp only [hsec] at h; simp at h
              | ok secondary =>
                  simp only [hsec] at h
                  cases hlc : getContrastRatio p.light "#ffffff" with
                  | error e => rw [hlc] at h; simp at h
                  | ok lightContrast =>
                      rw [hlc] at h
                      cases hli : (if lightContrast > 1.5
                          then ThemeManager.lightenColor p.light
                          else Except.ok p.light) with
                      | error e => simp only [hli] at h; simp at h
                      | ok light =>
                          simp only [hli, Except.ok.injEq] at h
                          subst h
                          cases pOk with
                          | true =>
                              left
                              refine ⟨rfl, ?_⟩
                              rw [if_pos rfl] at hpr
                              simp only [Except.ok.injEq] at hpr
                              subst hpr
                              rfl
                          | false =>
                              right
                              refine ⟨rfl, ?_⟩
                              rw [if_neg (by simp)] at hpr
                              exact hpr

/-- C2: every palette that `validateAccessibility` successfully returns has a
primary color whose contrast ratio against a white background is at least
4.5:1 — either the input primary already met the AA check, or it was darkened
in 0.05 lightness steps (floored at 0.1, at most 20 attempts), and the
lightness floor always yields a compliant color within the attempt budget. -/
theorem validated_primary_meets_AA (p out : AccentPalette)
    (h : ThemeManager.validateAccessibility p = .ok out) :
    ∃ r, getContrastRatio out.primary "#ffffff" = .ok r ∧ 4.5 ≤ r := by
  rcases validateAccessibility_primary p out h with ⟨hm, hout⟩ | ⟨hm, hadj⟩
  · rw [hout]
    exact meets_true_ratio _ _ hm
  · exact adjust_meets p.primary out.primary hadj

/-- Luminance of black is zero. -/
theorem lum_black : getRelativeLuminance ⟨0, 0, 0⟩ = 0 := by
  have h0 : srgbLin (((0 : ℕ) : ℝ) / 255) = 0 := by
    unfold srgbLin
    rw [if_pos (by norm_num)]
    norm_num
  rw [show getRelativeLuminance ⟨0, 0, 0⟩ =
      0.2126 * srgbLin (((0 : ℕ) : ℝ) / 255) +
      0.7152 * srgbLin (((0 : ℕ) : ℝ) / 255) +
      0.0722 * srgbLin (((0 : ℕ) : ℝ) / 255) from rfl, h0]
  ring

/-- The black-on-white contrast ratio evaluates to 21. -/
theorem contrast_black_white : getContrastRatio "#000000" "#ffffff" = .ok 21 := by
  have heq := getContrastRatio_ok "#000000" "#ffffff" ⟨0, 0, 0⟩ ⟨255, 255, 255⟩
    rfl rfl
  rw [lum_black, lum_white] at heq
  rw [heq]
  norm_num

/-- The white-on-white contrast ratio evaluates to 1. -/
theorem contrast_white_white : getContrastRatio "#ffffff" "#ffffff" = .ok 1 := by
  have heq := getContrastRatio_ok "#ffffff" "#ffffff" ⟨255, 255, 255⟩
    ⟨255, 255, 255⟩ rfl rfl
  rw [lum_white] at heq
  rw [heq]
  norm_num

/-- `validateAccessibility` on the all-black-on-white palette returns it
unchanged: black meets AA against white (ratio 21) and white light stays. -/
theorem validate_black_palette :
    ThemeManager.validateAccessibility ⟨"#000000", "#000000", "#ffffff", "#ffffff"⟩ =
      .ok ⟨"#000000", "#000000", "#ffffff", "#ffffff"⟩ := by
  have hmb : meetsAccessibilityStandards "#000000" "#ffffff" .AA = .ok true :=
    meets_of_ratio _ _ 21 contrast_black_white (by norm_num)
  unfold ThemeManager.validateAccessibility
  rw [show (⟨"#000000", "#000000", "#ffffff", "#ffffff"⟩ :
      AccentPalette).primary = "#000000" from rfl,
     show (⟨"#000000", "#000000", "#ffffff", "#ffffff"⟩ :
      AccentPalette).secondary = "#000000" from rfl,
     show (⟨"#000000", "#000000", "#ffffff", "#ffffff"⟩ :
      AccentPalette).light = "#ffffff" from rfl,
     hmb, contrast_white_white]
  norm_num

/-- Witness for C2: the validated all-black-on-white palette's primary meets
the 4.5:1 ratio against white. -/
theorem validated_primary_meets_AA_witness :
    ∃ r, getContrastRatio "#000000" "#ffffff" = .ok r ∧ 4.5 ≤ r :=
  validated_primary_meets_AA ⟨"#000000", "#000000", "#ffffff", "#ffffff"⟩
    ⟨"#000000", "#000000", "#ffffff", "#ffffff"⟩ validate_black_palette
